import Mathlib

/-!
# A shallow embedding of `bulk-tumour-api`

This file embeds the client in `src/bulk-tumour-api/repository.py` and
`src/bulk-tumour-api/utils.py` (a Zenodo-repository browsing and download
client) and proves properties about the embedded operations.

Modelling conventions:

* Python strings are Lean `String`s; negative indexing `s[-1]` is
  `s.data.getLast?` and raises `IndexError` on the empty string.
* HTTP transport and HTML parsing are external collaborators: a fetched and
  parsed table is supplied by an oracle `Env.remote : String → Table`
  (the table served at a URL), and a parsed listing page is a `List Tag`.
  Every outgoing fetch is recorded, in order, in `World.fetches`.
* The local filesystem is `FS`: the list of created directories plus the
  append-only log of file-write events (an overwrite appends a new event).
* The wall clock is the oracle `Env.clock : Nat → String`, giving the
  date string returned by the n-th call to `record_date` in the run;
  `World.clockCalls` counts the calls made so far.
* A Python method returns its (possibly mutated) object and world even when
  it raises, since attribute assignments before a `raise` persist; hence
  methods return `Object × World × Except PyError α`.
* Memoized attributes set by `hasattr`-guarded code are `Option` fields of
  the object; an attribute that no method ever assigns (notably
  `self.synthetic`, read at repository.py line 131) is likewise an `Option`
  field that is `none` in every state the class itself can produce, and
  reading it at `none` is an `AttributeError`.
-/

/-- Python errors that the embedded code can raise. -/
inductive PyError where
  | attributeError (attr : String)
  | nameError (name : String)
  | indexError
  | valueError (msg : String)
  | typeError (msg : String)
  | formatError (filename : String)
deriving Repr, DecidableEq

/-- A row of a delimited table.  The catalogs of this repository use the
columns `dataset`, `file` and `identifier`; rows of other tables carry the
same shape with unused fields ignored. -/
structure Row where
  dataset : String
  file : String
  identifier : String
deriving Repr, DecidableEq, Inhabited

/-- A parsed delimited table: its rows in order. -/
abbrev Table := List Row

/-- A parsed HTML element, as seen through the HTML-parser collaborator:
tag name, CSS classes, text content and `href` attribute. -/
structure Tag where
  name : String
  classes : List String
  textContent : String
  href : String
deriving Repr, DecidableEq

/-- The external world oracles: `remote url` is the parsed table served at
`url`, and `clock n` is the date string the n-th `record_date` call of the
run returns. -/
structure Env where
  remote : String → Table
  clock : Nat → String

/-- The local filesystem: directories that exist, and the ordered log of
file writes `(path, content)`. -/
structure FS where
  dirs : List String
  files : List (String × Table)
deriving Repr, DecidableEq

/-- Mutable world state threaded through the embedded operations. -/
structure World where
  fs : FS
  clockCalls : Nat
  fetches : List String
deriving Repr, DecidableEq

/-- The world at program start: empty filesystem, no clock calls, no
fetches. -/
def World.init : World := { fs := { dirs := [], files := [] }, clockCalls := 0, fetches := [] }

/-- A Python value passed where the source annotates `str` but the body also
tests for `list` (see `get_synthetic_sample`). -/
inductive PyVal where
  | str (s : String)
  | list (xs : List String)
deriving Repr, DecidableEq

/-- Python `s[-1]`: the last character, or `IndexError` (`none`) when the
string is empty. -/
def pyLastChar (s : String) : Option Char := s.data.getLast?

/-- Python `s[:-1]`: the string without its last character. -/
def pyDropLast (s : String) : String := String.mk s.data.dropLast

/-- Contiguous-sublist test on character lists (helper for Python's
substring containment). -/
def listContainsSub (sub : List Char) : List Char → Bool
  | [] => sub.isPrefixOf []
  | c :: t => sub.isPrefixOf (c :: t) || listContainsSub sub t

/-- Python `sub in s` (substring containment). -/
def containsSub (s sub : String) : Bool := listContainsSub sub.data s.data

/-- Python `s.endswith(suffix)`, on the character lists. -/
def pyEndsWith (s suffix : String) : Bool := suffix.data.isSuffixOf s.data

/-- A string with its trailing slash (if any) removed; used to state the
listing-entry property. -/
def stripTrailingSlash (s : String) : String :=
  if pyLastChar s = some '/' then pyDropLast s else s

/-- Modelled from the spec: `delimiter_type` is imported from `.utils` at
repository.py line 7 but is absent from `src/utils.py`.  Per the spec it
selects a delimiter by file extension: `.csv` → comma, `.tsv`/`.txt` → tab,
and an unrecognized extension fails with `FormatError`. -/
def delimiter_type (filename : String) : Except PyError String :=
  if pyEndsWith filename ".csv" then .ok ","
  else if pyEndsWith filename ".tsv" then .ok "\t"
  else if pyEndsWith filename ".txt" then .ok "\t"
  else .error (.formatError filename)

/-- Modelled from the spec: `record_date` is imported from `.utils` at
repository.py line 7 but is absent from `src/utils.py`.  Per the spec it
returns the current date as a date-only token (e.g. `YYYY-MM-DD`); it is
modelled by reading the clock oracle at the current call counter. -/
def record_date (env : Env) (w : World) : String × World :=
  (env.clock w.clockCalls, { w with clockCalls := w.clockCalls + 1 })

/-- `pd.read_csv(url, delimiter=delimiter_type(filename))`: the delimiter
argument is evaluated first, so an unrecognized extension fails before any
fetch; otherwise the fetch of `url` is recorded and the table served there
is returned. -/
def pd_read_csv (env : Env) (w : World) (url filename : String) :
    World × Except PyError Table :=
  match delimiter_type filename with
  | .error e => (w, .error e)
  | .ok _ => ({ w with fetches := w.fetches ++ [url] }, .ok (env.remote url))

/-- The state of a `ZenodoRepository` object (repository.py lines 10-182).
The last four fields are attributes assigned after construction; each is
`none` until the corresponding assignment runs.  `synthetic` is read at
line 131 but assigned by no method of the class. -/
structure ZenodoRepository where
  path : String
  synthetic_datasets_name : String
  synthetic_samples_name : String
  synthetic_datasets : Option Table
  synthetic_samples : Option Table
  synthetic : Option Table
  contents : Option (List (String × String))
  database : Option Table
deriving Repr, DecidableEq

/-- Embeds `ZenodoRepository.__init__` (repository.py lines 18-32):
`self.path = path if path[-1] != '/' else path[:-1]` (an `IndexError` on
the empty string), then — testing the stripped value but assigning from the
original `path` in both branches — `self.path = path` when `'https://' in
self.path` else `self.path = 'https://' + path`. -/
def ZenodoRepository.init (path synthetic_datasets_name synthetic_samples_name : String) :
    Except PyError ZenodoRepository :=
  match pyLastChar path with
  | none => .error .indexError
  | some c =>
      let stripped := if c != '/' then path else pyDropLast path
      let finalPath := if containsSub stripped "https://" then path else "https://" ++ path
      .ok { path := finalPath, synthetic_datasets_name, synthetic_samples_name,
            synthetic_datasets := none, synthetic_samples := none, synthetic := none,
            contents := none, database := none }

/-- `soup.find_all("a", {"class": "filename"})`: the anchors of the parsed
page that carry the fixed `filename` class, in document order. -/
def findFilenameAnchors (page : List Tag) : List Tag :=
  page.filter (fun t => t.name == "a" && t.classes.contains "filename")

/-- Embeds `list_zenodo_contents` (utils.py lines 4-34) after the HTTP fetch
and HTML parse (external collaborators): select the filename anchors, strip
a trailing slash from `path` (line 32, an `IndexError` on the empty string),
and emit `(textContent, path + href)` per anchor in document order. -/
def list_zenodo_contents (path : String) (page : List Tag) :
    Except PyError (List (String × String)) :=
  let tags := findFilenameAnchors page
  match pyLastChar path with
  | none => .error .indexError
  | some c =>
      let path := if c == '/' then pyDropLast path else path
      .ok (tags.map (fun t => (t.textContent, path ++ t.href)))

/-- Embeds `ZenodoRepository.get_contents` (repository.py lines 34-62) after
the fetch of `self.path` (recorded) and the parse: entry list
`(textContent, self.path + href)` per filename anchor, stored in
`self.contents` and returned.  Unlike `list_zenodo_contents`, `self.path`
is used verbatim, with no trailing-slash stripping. -/
def ZenodoRepository.get_contents (repo : ZenodoRepository) (w : World) (page : List Tag) :
    ZenodoRepository × World × List (String × String) :=
  let entries := (findFilenameAnchors page).map (fun t => (t.textContent, repo.path ++ t.href))
  ({ repo with contents := some entries },
   { w with fetches := w.fetches ++ [repo.path] },
   entries)

/-- The URL of the dataset catalog: `self.path + '/files/' + self.synthetic_datasets_name`. -/
def ZenodoRepository.datasetCatalogUrl (repo : ZenodoRepository) : String :=
  repo.path ++ "/files/" ++ repo.synthetic_datasets_name

/-- The URL of the sample catalog: `self.path + '/files/' + self.synthetic_samples_name`. -/
def ZenodoRepository.sampleCatalogUrl (repo : ZenodoRepository) : String :=
  repo.path ++ "/files/" ++ repo.synthetic_samples_name

/-- Embeds `ZenodoRepository.list_synthetic_datasets` (repository.py lines
81-93): unconditionally fetch and parse the dataset catalog, store it in
`self.synthetic_datasets` and return it. -/
def ZenodoRepository.list_synthetic_datasets (repo : ZenodoRepository) (env : Env) (w : World) :
    ZenodoRepository × World × Except PyError Table :=
  match pd_read_csv env w repo.datasetCatalogUrl repo.synthetic_datasets_name with
  | (w, .error e) => (repo, w, .error e)
  | (w, .ok t) => ({ repo with synthetic_datasets := some t }, w, .ok t)

/-- Embeds `ZenodoRepository.list_synthetic_samples` (repository.py lines
95-107): unconditionally fetch and parse the sample catalog, store it in
`self.synthetic_samples` and return it. -/
def ZenodoRepository.list_synthetic_samples (repo : ZenodoRepository) (env : Env) (w : World) :
    ZenodoRepository × World × Except PyError Table :=
  match pd_read_csv env w repo.sampleCatalogUrl repo.synthetic_samples_name with
  | (w, .error e) => (repo, w, .error e)
  | (w, .ok t) => ({ repo with synthetic_samples := some t }, w, .ok t)

/-- The message of the `ValueError` raised at repository.py lines 154-157
(the Python line continuation keeps the second line's indentation inside
the literal). -/
def downloadErrMsg : String :=
  "The provided dataset name does not exist in the synthetic dataset list.                 Please call .get_synthetic_datasets() to see the available synthetic datasets."

/-- Embeds the download loop of `download_synthetic_dataset` (repository.py
lines 140-151).  For each file in order: call `record_date`, create
`save_path/dataset_name_timestamp` if it does not exist, then fetch the
sample file and write it into that directory under its own name.  A failed
delimiter selection aborts the remaining batch. -/
def download_loop (env : Env) (path save_path dataset_name : String) :
    World → List String → World × Except PyError Unit
  | w, [] => (w, .ok ())
  | w, f :: fs =>
      let (timestamp, w) := record_date env w
      let dir := save_path ++ "/" ++ dataset_name ++ "_" ++ timestamp
      let w := if w.fs.dirs.contains dir then w
               else { w with fs := { w.fs with dirs := w.fs.dirs ++ [dir] } }
      match pd_read_csv env w (path ++ "/files/" ++ f) f with
      | (w, .error e) => (w, .error e)
      | (w, .ok t) =>
          let w := { w with fs := { w.fs with files := w.fs.files ++ [(dir ++ "/" ++ f, t)] } }
          download_loop env path save_path dataset_name w fs

/-- Embeds repository.py lines 130-157, the part of
`download_synthetic_dataset` after the catalog-memoization step: read
`self.synthetic` (an `AttributeError` when unset — the attribute the class
never assigns; the hasattr-guarded load two lines above fills
`self.synthetic_datasets` instead), test membership of `dataset_name` in
its `dataset` column, and on success fetch the sample catalog into a local,
filter it by dataset, and run the download loop over the `file` column;
otherwise raise the `ValueError` of lines 154-157. -/
def download_after_load (env : Env) (repo : ZenodoRepository) (w : World)
    (dataset_name save_path : String) :
    ZenodoRepository × World × Except PyError Unit :=
  match repo.synthetic with
  | none => (repo, w, .error (.attributeError "synthetic"))
  | some syn =>
      if (syn.map Row.dataset).contains dataset_name then
        match pd_read_csv env w repo.sampleCatalogUrl repo.synthetic_samples_name with
        | (w, .error e) => (repo, w, .error e)
        | (w, .ok samples) =>
            let samples := samples.filter (fun r => r.dataset == dataset_name)
            let (w, r) := download_loop env repo.path save_path dataset_name w
              (samples.map Row.file)
            (repo, w, r)
      else (repo, w, .error (.valueError downloadErrMsg))

/-- Embeds `ZenodoRepository.download_synthetic_dataset` (repository.py
lines 109-157): strip a trailing slash from `save_path` (line 124, an
`IndexError` on the empty string), load the dataset catalog into
`self.synthetic_datasets` if absent (lines 127-128), then continue with
lines 130-157 (`download_after_load`). -/
def ZenodoRepository.download_synthetic_dataset (repo : ZenodoRepository) (env : Env)
    (w : World) (dataset_name save_path : String) :
    ZenodoRepository × World × Except PyError Unit :=
  match pyLastChar save_path with
  | none => (repo, w, .error .indexError)
  | some c =>
      let save_path := if c != '/' then save_path else pyDropLast save_path
      match repo.synthetic_datasets with
      | some _ => download_after_load env repo w dataset_name save_path
      | none =>
          match pd_read_csv env w repo.datasetCatalogUrl repo.synthetic_datasets_name with
          | (w, .error e) => (repo, w, .error e)
          | (w, .ok t) =>
              download_after_load env { repo with synthetic_datasets := some t } w
                dataset_name save_path

/-- Embeds `ZenodoRepository.get_synthetic_sample` (repository.py lines
159-182): load the sample catalog into `self.synthetic_samples` if absent
(lines 161-162), then evaluate `type(samples)` at line 165 — `samples` is
an undefined name (the parameter is `sample`), so every path raises
`NameError` there and lines 166-182 are unreachable. -/
def ZenodoRepository.get_synthetic_sample (repo : ZenodoRepository) (env : Env)
    (w : World) (sample : PyVal) :
    ZenodoRepository × World × Except PyError (List (String × Table)) :=
  match repo.synthetic_samples with
  | some _ => (repo, w, .error (.nameError "samples"))
  | none =>
      match pd_read_csv env w repo.sampleCatalogUrl repo.synthetic_samples_name with
      | (w, .error e) => (repo, w, .error e)
      | (w, .ok t) =>
          ({ repo with synthetic_samples := some t }, w, .error (.nameError "samples"))

/-- Does this outcome carry the `ValidationError` of the spec's taxonomy
(the `ValueError` of the source)? -/
def isValidationError {α : Type} : Except PyError α → Bool
  | .error (.valueError _) => true
  | _ => false

/-- Does this outcome carry the `InvalidArgument`/`TypeError` of the spec's
taxonomy? -/
def isInvalidArgument {α : Type} : Except PyError α → Bool
  | .error (.typeError _) => true
  | _ => false

/-- The writes the download loop performs when every delimiter is
recognized, starting from clock counter `c`: the i-th file `f` goes to
`save_path/dataset_name_{clock (c+i)}/f` with the table fetched from
`path/files/f`. -/
def expectedWrites (env : Env) (path save_path dataset_name : String) :
    Nat → List String → List (String × Table)
  | _, [] => []
  | c, f :: fs =>
      (save_path ++ "/" ++ dataset_name ++ "_" ++ env.clock c ++ "/" ++ f,
        env.remote (path ++ "/files/" ++ f))
        :: expectedWrites env path save_path dataset_name (c + 1) fs

/-! ## Concrete scenario used by the closed theorems -/

/-- The default repository URL of the source. -/
def cPath : String := "https://zenodo.org/record/6670391"

/-- The default dataset-catalog filename of the source. -/
def cDsName : String := "synthetic_datasets.tsv"

/-- The default sample-catalog filename of the source. -/
def cSsName : String := "synthetic_samples.tsv"

/-- The object produced by the constructor at the default arguments. -/
def cRepo0 : ZenodoRepository :=
  { path := cPath, synthetic_datasets_name := cDsName, synthetic_samples_name := cSsName,
    synthetic_datasets := none, synthetic_samples := none, synthetic := none,
    contents := none, database := none }

/-- A dataset catalog with the datasets `timing` and `other`. -/
def cDatasetCatalog : Table :=
  [ { dataset := "timing", file := "", identifier := "" },
    { dataset := "other", file := "", identifier := "" } ]

/-- The three-row sample catalog of the spec's example scenario: `a.tsv` and
`b.tsv` belong to `timing` (sharing identifier `S1`), `c.tsv` to `other`. -/
def cSampleCatalog : Table :=
  [ { dataset := "timing", file := "a.tsv", identifier := "S1" },
    { dataset := "timing", file := "b.tsv", identifier := "S1" },
    { dataset := "other", file := "c.tsv", identifier := "C1" } ]

/-- An environment serving the two catalogs at their URLs, empty tables
elsewhere, with a constant date. -/
def cEnv : Env :=
  { remote := fun url =>
      if url = cRepo0.datasetCatalogUrl then cDatasetCatalog
      else if url = cRepo0.sampleCatalogUrl then cSampleCatalog
      else [],
    clock := fun _ => "2026-10-12" }

/-- The same environment with a date change after the first clock reading:
the run starts on 2026-10-11 and the date flips to 2026-10-12 from the
second `record_date` call on. -/
def cEnvShift : Env :=
  { remote := cEnv.remote, clock := fun n => if n = 0 then "2026-10-11" else "2026-10-12" }

/-- `cRepo0` with the never-assigned attribute `synthetic` patched in from
outside the class (the only way the membership test at repository.py line
131 can be reached at all). -/
def cRepoSyn : ZenodoRepository := { cRepo0 with synthetic := some cDatasetCatalog }

/-! ## Helper lemmas -/

/-- A nonempty string has a last character. -/
theorem pyLastChar_of_ne_empty {s : String} (h : s ≠ "") : ∃ c, pyLastChar s = some c := by
  have hd : s.data ≠ [] := by
    intro hn
    apply h
    cases s with
    | mk d =>
        simp only [String.data] at hn
        subst hn
        rfl
  exact Option.isSome_iff_exists.mp (List.getLast?_isSome.mpr hd)

/-- An outcome with `isOk` set carries a value. -/
theorem except_isOk_exists {ε α : Type} {e : Except ε α} (h : e.isOk = true) :
    ∃ x, e = .ok x := by
  cases e with
  | ok x => exact ⟨x, rfl⟩
  | error err => simp [Except.isOk, Except.toBool] at h

/-! ## Claim theorems -/

/-- C1: the claim says a dataset name absent from the catalog makes
`download_synthetic_dataset` fail with `ValidationError` naming the invalid
dataset and perform no filesystem writes.  On the code, the call loads the
dataset catalog and then raises `AttributeError` at repository.py line 131
(it reads `self.synthetic`, which is never assigned; the guarded load two
lines above fills `self.synthetic_datasets`), so the `ValueError` branch of
lines 153-157 is unreachable; no filesystem write happens, as the claim
says, but the error is not the ValidationError the claim requires. -/
theorem download_absent_dataset_raises_attribute_error :
    ZenodoRepository.init cPath cDsName cSsName = .ok cRepo0
    ∧ (cRepo0.download_synthetic_dataset cEnv World.init "missing" "/tmp/out")
        = ({ cRepo0 with synthetic_datasets := some cDatasetCatalog },
           { World.init with fetches := [cRepo0.datasetCatalogUrl] },
           .error (.attributeError "synthetic"))
    ∧ isValidationError
        (cRepo0.download_synthetic_dataset cEnv World.init "missing" "/tmp/out").2.2 = false
    ∧ (cRepo0.download_synthetic_dataset cEnv World.init "missing" "/tmp/out").2.1.fs
        = World.init.fs :=
  ⟨rfl, rfl, rfl, rfl⟩

/-- C2: the claim says a valid dataset name makes the call write one file
per matching sample row into a single dated directory, fetching `a.tsv`
and `b.tsv` but not `c.tsv` in the example scenario.  On the code, the call
with the valid name `timing` fetches only the dataset catalog and then
raises `AttributeError` at repository.py line 131; no sample file is
fetched and nothing is written. -/
theorem download_valid_dataset_raises_attribute_error :
    (cRepo0.download_synthetic_dataset cEnv World.init "timing" "/tmp/out")
        = ({ cRepo0 with synthetic_datasets := some cDatasetCatalog },
           { World.init with fetches := [cRepo0.datasetCatalogUrl] },
           .error (.attributeError "synthetic"))
    ∧ (cDatasetCatalog.map Row.dataset).contains "timing" = true :=
  ⟨rfl, rfl⟩

/-- C3 counterexample: the claim says each invocation computes exactly one
date token shared by all its files, so all files land in one directory even
if the date changes mid-batch.  On the code, a reachable invocation
computes zero tokens (it raises `AttributeError` first); and the download
loop of lines 140-151 — run here on a state whose `synthetic` attribute was
patched in from outside the class, the only way the loop is reachable —
reads `record_date()` once per file, so a date change mid-batch puts the
two files of one invocation into two distinct directories. -/
theorem download_no_shared_batch_timestamp_cex :
    (cRepo0.download_synthetic_dataset cEnv World.init "timing" "/tmp/out").2.1.clockCalls = 0
    ∧ (cRepo0.download_synthetic_dataset cEnv World.init "timing" "/tmp/out").2.2
        = .error (.attributeError "synthetic")
    ∧ (cRepoSyn.download_synthetic_dataset cEnvShift World.init "timing" "/tmp/out").2.1.fs.dirs
        = ["/tmp/out/timing_2026-10-11", "/tmp/out/timing_2026-10-12"]
    ∧ (cRepoSyn.download_synthetic_dataset cEnvShift World.init "timing" "/tmp/out").2.1.fs.files.map
        Prod.fst
        = ["/tmp/out/timing_2026-10-11/a.tsv", "/tmp/out/timing_2026-10-12/b.tsv"]
    ∧ ("/tmp/out/timing_2026-10-11" : String) ≠ "/tmp/out/timing_2026-10-12" :=
  ⟨rfl, rfl, rfl, rfl, by decide⟩

/-- C4: the claim says every constructed `baseUrl` is non-empty, begins
with `https://` and has no trailing slash.  On the code, both branches of
the scheme check at repository.py lines 25-28 assign from the original
`path` rather than the stripped `self.path` of line 24, so a trailing
slash survives construction: the default URL with a trailing slash added
is stored verbatim, slash included. -/
theorem init_discards_slash_stripping :
    ZenodoRepository.init (cPath ++ "/") cDsName cSsName
      = .ok { cRepo0 with path := cPath ++ "/" }
    ∧ pyLastChar (cPath ++ "/") = some '/' :=
  ⟨rfl, rfl⟩

/-- C9: the claim says two same-day calls for the same dataset reuse one
output directory and accumulate into it.  On the code, both calls raise
`AttributeError` at repository.py line 131 (the first call does memoize the
dataset catalog, so the second fetches nothing) and no directory is ever
created, let alone reused. -/
theorem download_twice_creates_no_directory :
    (cRepo0.download_synthetic_dataset cEnv World.init "timing" "/tmp/out").2.2
        = .error (.attributeError "synthetic")
    ∧ ((cRepo0.download_synthetic_dataset cEnv World.init "timing" "/tmp/out").1.download_synthetic_dataset
          cEnv (cRepo0.download_synthetic_dataset cEnv World.init "timing" "/tmp/out").2.1
          "timing" "/tmp/out").2.2
        = .error (.attributeError "synthetic")
    ∧ ((cRepo0.download_synthetic_dataset cEnv World.init "timing" "/tmp/out").1.download_synthetic_dataset
          cEnv (cRepo0.download_synthetic_dataset cEnv World.init "timing" "/tmp/out").2.1
          "timing" "/tmp/out").2.1.fs.dirs = []
    ∧ ((cRepo0.download_synthetic_dataset cEnv World.init "timing" "/tmp/out").1.download_synthetic_dataset
          cEnv (cRepo0.download_synthetic_dataset cEnv World.init "timing" "/tmp/out").2.1
          "timing" "/tmp/out").2.1.fs.files = [] :=
  ⟨rfl, rfl, rfl, rfl⟩

/-- Trace of the download loop when every delimiter is recognized: one
clock call per file, and the writes of `expectedWrites`. -/
theorem download_loop_trace (env : Env) (path save_path dataset_name : String) :
    ∀ (files : List String) (w : World),
      (∀ f ∈ files, (delimiter_type f).isOk = true) →
      (download_loop env path save_path dataset_name w files).1.clockCalls
          = w.clockCalls + files.length
      ∧ (download_loop env path save_path dataset_name w files).1.fs.files
          = w.fs.files ++ expectedWrites env path save_path dataset_name w.clockCalls files
      ∧ (download_loop env path save_path dataset_name w files).2 = .ok () := by
  intro files
  induction files with
  | nil => intro w _; simp [download_loop, expectedWrites]
  | cons f fs ih =>
      intro w h
      have hf : (delimiter_type f).isOk = true := h f (List.mem_cons_self f fs)
      obtain ⟨d, hd⟩ := except_isOk_exists hf
      have hrest : ∀ g ∈ fs, (delimiter_type g).isOk = true :=
        fun g hg => h g (List.mem_cons_of_mem f hg)
      simp only [download_loop, record_date, pd_read_csv, hd, expectedWrites]
      split
      · obtain ⟨h1, h2, h3⟩ := ih _ hrest
        refine ⟨?_, ?_, h3⟩
        · rw [h1]; simp; omega
        · rw [h2]; simp [List.append_assoc]
      · obtain ⟨h1, h2, h3⟩ := ih _ hrest
        refine ⟨?_, ?_, h3⟩
        · rw [h1]; simp; omega
        · rw [h2]; simp [List.append_assoc]

/-- C3 amended: no invocation shares one date token across its batch.  As
written, `download_synthetic_dataset` performs zero `record_date` calls (it
raises `AttributeError` at repository.py line 131 on every state the class
can produce); and its loop (lines 140-151) calls `record_date` once per
file, so the i-th file of a batch starting at clock counter c is written
into `save_path/dataset_name_{clock (c+i)}`, one directory per distinct
date returned during the batch. -/
theorem download_timestamp_per_file (env : Env) (repo : ZenodoRepository)
    (w w2 : World) (dataset_name save_path path save2 name2 : String) (files : List String)
    (hsyn : repo.synthetic = none) (hsave : save_path ≠ "")
    (hext : ∀ f ∈ files, (delimiter_type f).isOk = true) :
    (repo.download_synthetic_dataset env w dataset_name save_path).2.1.clockCalls = w.clockCalls
    ∧ (download_loop env path save2 name2 w2 files).1.clockCalls
        = w2.clockCalls + files.length
    ∧ (download_loop env path save2 name2 w2 files).1.fs.files
        = w2.fs.files ++ expectedWrites env path save2 name2 w2.clockCalls files := by
  obtain ⟨h1, h2, _⟩ := download_loop_trace env path save2 name2 files w2 hext
  refine ⟨?_, h1, h2⟩
  obtain ⟨c, hc⟩ := pyLastChar_of_ne_empty hsave
  cases hds : repo.synthetic_datasets with
  | some t =>
      simp [ZenodoRepository.download_synthetic_dataset, download_after_load, hc, hds, hsyn]
  | none =>
      cases hdt : delimiter_type repo.synthetic_datasets_name with
      | error e =>
          simp [ZenodoRepository.download_synthetic_dataset, pd_read_csv, hc, hds, hdt]
      | ok d =>
          simp [ZenodoRepository.download_synthetic_dataset, download_after_load,
            pd_read_csv, hc, hds, hdt, hsyn]

/-- Witness for `download_timestamp_per_file` at a concrete instance. -/
theorem download_timestamp_per_file_witness :
    (cRepo0.download_synthetic_dataset cEnvShift World.init "timing" "/tmp/out").2.1.clockCalls
        = World.init.clockCalls
    ∧ (download_loop cEnvShift cPath "/tmp/out" "timing" World.init ["a.tsv", "b.tsv"]).1.clockCalls
        = World.init.clockCalls + (["a.tsv", "b.tsv"] : List String).length
    ∧ (download_loop cEnvShift cPath "/tmp/out" "timing" World.init ["a.tsv", "b.tsv"]).1.fs.files
        = World.init.fs.files
          ++ expectedWrites cEnvShift cPath "/tmp/out" "timing" World.init.clockCalls
              ["a.tsv", "b.tsv"] :=
  download_timestamp_per_file cEnvShift cRepo0 World.init World.init "timing" "/tmp/out"
    cPath "/tmp/out" "timing" ["a.tsv", "b.tsv"] rfl (by decide) (by decide)

/-- C5: for every listing page, `list_zenodo_contents` returns one entry
per filename anchor, in document order, pairing the anchor text with the
trailing-slash-stripped path followed by the href; zero matching anchors
give the empty list, not an error. -/
theorem listContents_returns_all_anchors (path : String) (page : List Tag) (h : path ≠ "") :
    list_zenodo_contents path page
      = .ok ((findFilenameAnchors page).map
          (fun t => (t.textContent, stripTrailingSlash path ++ t.href)))
    ∧ (findFilenameAnchors page = [] → list_zenodo_contents path page = .ok []) := by
  obtain ⟨c, hc⟩ := pyLastChar_of_ne_empty h
  have eq1 : list_zenodo_contents path page
      = .ok ((findFilenameAnchors page).map
          (fun t => (t.textContent, stripTrailingSlash path ++ t.href))) := by
    by_cases hcs : c = '/'
    · subst hcs
      simp [list_zenodo_contents, stripTrailingSlash, hc]
    · simp [list_zenodo_contents, stripTrailingSlash, hc, hcs]
  exact ⟨eq1, fun h0 => by rw [eq1, h0]; rfl⟩

/-- A listing page for the witness: two filename anchors around a
non-matching tag. -/
def cPage : List Tag :=
  [ { name := "a", classes := ["filename"], textContent := "a.tsv", href := "/files/a.tsv" },
    { name := "div", classes := ["header"], textContent := "x", href := "/x" },
    { name := "a", classes := ["filename"], textContent := "b.tsv", href := "/files/b.tsv" } ]

/-- Witness for `listContents_returns_all_anchors` at a concrete page and a
path carrying a trailing slash. -/
theorem listContents_returns_all_anchors_witness :
    list_zenodo_contents "https://zenodo.org/record/5931436/" cPage
      = .ok ((findFilenameAnchors cPage).map
          (fun t => (t.textContent,
            stripTrailingSlash "https://zenodo.org/record/5931436/" ++ t.href)))
    ∧ (findFilenameAnchors cPage = []
        → list_zenodo_contents "https://zenodo.org/record/5931436/" cPage = .ok []) :=
  listContents_returns_all_anchors "https://zenodo.org/record/5931436/" cPage (by decide)

/-- C6: the catalogs are memoized.  On every state the class can produce
(`synthetic = none`), `download_synthetic_dataset` fetches the dataset
catalog exactly when it is not already held and afterwards holds the old
value if one was held (and never touches the held sample catalog);
`get_synthetic_sample` does the same for the sample catalog; and only the
explicit list operations fetch unconditionally and replace the held
value. -/
theorem catalogs_fetched_lazily (repo : ZenodoRepository) (env : Env) (w : World)
    (dataset_name save_path : String) (arg : PyVal)
    (hsyn : repo.synthetic = none) (hsave : save_path ≠ "")
    (hds : (delimiter_type repo.synthetic_datasets_name).isOk = true)
    (hss : (delimiter_type repo.synthetic_samples_name).isOk = true) :
    ((repo.download_synthetic_dataset env w dataset_name save_path).2.1.fetches
        = w.fetches ++ (if repo.synthetic_datasets.isSome then [] else [repo.datasetCatalogUrl]))
    ∧ ((repo.download_synthetic_dataset env w dataset_name save_path).1.synthetic_datasets
        = some (repo.synthetic_datasets.getD (env.remote repo.datasetCatalogUrl)))
    ∧ ((repo.download_synthetic_dataset env w dataset_name save_path).1.synthetic_samples
        = repo.synthetic_samples)
    ∧ ((repo.get_synthetic_sample env w arg).2.1.fetches
        = w.fetches ++ (if repo.synthetic_samples.isSome then [] else [repo.sampleCatalogUrl]))
    ∧ ((repo.get_synthetic_sample env w arg).1.synthetic_samples
        = some (repo.synthetic_samples.getD (env.remote repo.sampleCatalogUrl)))
    ∧ ((repo.get_synthetic_sample env w arg).1.synthetic_datasets
        = repo.synthetic_datasets)
    ∧ ((repo.list_synthetic_datasets env w).1.synthetic_datasets
        = some (env.remote repo.datasetCatalogUrl))
    ∧ ((repo.list_synthetic_datasets env w).2.1.fetches
        = w.fetches ++ [repo.datasetCatalogUrl])
    ∧ ((repo.list_synthetic_samples env w).1.synthetic_samples
        = some (env.remote repo.sampleCatalogUrl))
    ∧ ((repo.list_synthetic_samples env w).2.1.fetches
        = w.fetches ++ [repo.sampleCatalogUrl]) := by
  obtain ⟨c, hc⟩ := pyLastChar_of_ne_empty hsave
  obtain ⟨d1, hd1⟩ := except_isOk_exists hds
  obtain ⟨d2, hd2⟩ := except_isOk_exists hss
  refine ⟨?_, ?_, ?_, ?_, ?_, ?_, ?_, ?_, ?_, ?_⟩ <;>
    cases hdsv : repo.synthetic_datasets <;>
      cases hssv : repo.synthetic_samples <;>
        simp [ZenodoRepository.download_synthetic_dataset, download_after_load,
          ZenodoRepository.get_synthetic_sample, ZenodoRepository.list_synthetic_datasets,
          ZenodoRepository.list_synthetic_samples, pd_read_csv, hc, hd1, hd2, hsyn,
          hdsv, hssv]

/-- Witness for `catalogs_fetched_lazily` at a concrete instance. -/
theorem catalogs_fetched_lazily_witness :
    ((cRepo0.download_synthetic_dataset cEnv World.init "timing" "/tmp/out").2.1.fetches
        = World.init.fetches
          ++ (if cRepo0.synthetic_datasets.isSome then [] else [cRepo0.datasetCatalogUrl]))
    ∧ ((cRepo0.download_synthetic_dataset cEnv World.init "timing" "/tmp/out").1.synthetic_datasets
        = some (cRepo0.synthetic_datasets.getD (cEnv.remote cRepo0.datasetCatalogUrl)))
    ∧ ((cRepo0.download_synthetic_dataset cEnv World.init "timing" "/tmp/out").1.synthetic_samples
        = cRepo0.synthetic_samples)
    ∧ ((cRepo0.get_synthetic_sample cEnv World.init (.str "a.tsv")).2.1.fetches
        = World.init.fetches
          ++ (if cRepo0.synthetic_samples.isSome then [] else [cRepo0.sampleCatalogUrl]))
    ∧ ((cRepo0.get_synthetic_sample cEnv World.init (.str "a.tsv")).1.synthetic_samples
        = some (cRepo0.synthetic_samples.getD (cEnv.remote cRepo0.sampleCatalogUrl)))
    ∧ ((cRepo0.get_synthetic_sample cEnv World.init (.str "a.tsv")).1.synthetic_datasets
        = cRepo0.synthetic_datasets)
    ∧ ((cRepo0.list_synthetic_datasets cEnv World.init).1.synthetic_datasets
        = some (cEnv.remote cRepo0.datasetCatalogUrl))
    ∧ ((cRepo0.list_synthetic_datasets cEnv World.init).2.1.fetches
        = World.init.fetches ++ [cRepo0.datasetCatalogUrl])
    ∧ ((cRepo0.list_synthetic_samples cEnv World.init).1.synthetic_samples
        = some (cEnv.remote cRepo0.sampleCatalogUrl))
    ∧ ((cRepo0.list_synthetic_samples cEnv World.init).2.1.fetches
        = World.init.fetches ++ [cRepo0.sampleCatalogUrl]) :=
  catalogs_fetched_lazily cRepo0 cEnv World.init "timing" "/tmp/out" (.str "a.tsv")
    rfl (by decide) (by decide) (by decide)

/-- C7 amended: `get_synthetic_sample` raises `NameError` for every
argument — a filename resolving to zero rows and a multi-element batch
alike — whenever the sample catalog is held or its filename has a
recognized extension: the body refers to the undefined name `samples` at
repository.py line 165 (the parameter is `sample`), before any of the
validation the claim describes could run; no input produces the claimed
`ValidationError` or `TypeError`. -/
theorem getSample_always_nameError (repo : ZenodoRepository) (env : Env) (w : World)
    (arg : PyVal)
    (h : repo.synthetic_samples.isSome = true
        ∨ (delimiter_type repo.synthetic_samples_name).isOk = true) :
    (repo.get_synthetic_sample env w arg).2.2 = .error (.nameError "samples")
    ∧ isValidationError (repo.get_synthetic_sample env w arg).2.2 = false
    ∧ isInvalidArgument (repo.get_synthetic_sample env w arg).2.2 = false := by
  have key : (repo.get_synthetic_sample env w arg).2.2 = .error (.nameError "samples") := by
    cases hss : repo.synthetic_samples with
    | some t => simp [ZenodoRepository.get_synthetic_sample, hss]
    | none =>
        rcases h with h | h
        · rw [hss] at h; simp at h
        · obtain ⟨d, hd⟩ := except_isOk_exists h
          simp [ZenodoRepository.get_synthetic_sample, hss, pd_read_csv, hd]
  exact ⟨key, by rw [key]; rfl, by rw [key]; rfl⟩

/-- Witness for `getSample_always_nameError` at a concrete instance. -/
theorem getSample_always_nameError_witness :
    (cRepo0.get_synthetic_sample cEnv World.init (.str "nofile.tsv")).2.2
        = .error (.nameError "samples")
    ∧ isValidationError
        (cRepo0.get_synthetic_sample cEnv World.init (.str "nofile.tsv")).2.2 = false
    ∧ isInvalidArgument
        (cRepo0.get_synthetic_sample cEnv World.init (.str "nofile.tsv")).2.2 = false :=
  getSample_always_nameError cRepo0 cEnv World.init (.str "nofile.tsv") (Or.inr (by decide))

/-- C7 counterexample: a filename resolving to zero catalog rows makes
`get_synthetic_sample` raise `NameError`, not the claimed
`ValidationError`; a two-element batch likewise raises `NameError`, not
the claimed `TypeError`-equivalent. -/
theorem getSample_error_taxonomy_cex :
    (cRepo0.get_synthetic_sample cEnv World.init (.str "absent.tsv")).2.2
        = .error (.nameError "samples")
    ∧ isValidationError
        (cRepo0.get_synthetic_sample cEnv World.init (.str "absent.tsv")).2.2 = false
    ∧ (cSampleCatalog.filter (fun r => r.file == "absent.tsv")) = []
    ∧ (cRepo0.get_synthetic_sample cEnv World.init (.list ["a.tsv", "b.tsv"])).2.2
        = .error (.nameError "samples")
    ∧ isInvalidArgument
        (cRepo0.get_synthetic_sample cEnv World.init (.list ["a.tsv", "b.tsv"])).2.2 = false :=
  ⟨rfl, rfl, rfl, rfl, rfl⟩

/-- C8: the claim says a catalog filename whose identifier is shared by two
rows yields a two-entry mapping keyed by those filenames.  On the code, the
call with the valid filename `a.tsv` (identifier `S1`, shared with `b.tsv`)
loads the sample catalog and then raises `NameError` at repository.py line
165 (the body reads the undefined name `samples`; the parameter is
`sample`), returning no mapping at all. -/
theorem getSample_valid_file_raises_nameError :
    cRepo0.get_synthetic_sample cEnv World.init (.str "a.tsv")
      = ({ cRepo0 with synthetic_samples := some cSampleCatalog },
         { World.init with fetches := [cRepo0.sampleCatalogUrl] },
         .error (.nameError "samples"))
    ∧ (cSampleCatalog.filter (fun r => r.identifier == "S1")).map Row.file
        = ["a.tsv", "b.tsv"] :=
  ⟨rfl, rfl⟩

/-- C10: the empty string is rejected by the `path[-1]` indexing of the
constructor (repository.py line 24) with `IndexError`, every nonempty path
is accepted, and the same indexing of `save_path` at line 124 makes
`download_synthetic_dataset` raise `IndexError` on an empty destination
before touching any state. -/
theorem init_requires_nonempty_path (p ds ss dataset_name : String)
    (repo : ZenodoRepository) (env : Env) (w : World) (h : p ≠ "") :
    (∃ r, ZenodoRepository.init p ds ss = .ok r)
    ∧ ZenodoRepository.init "" ds ss = .error .indexError
    ∧ repo.download_synthetic_dataset env w dataset_name "" = (repo, w, .error .indexError) := by
  obtain ⟨c, hc⟩ := pyLastChar_of_ne_empty h
  have hok : ∃ r, ZenodoRepository.init p ds ss = .ok r := by
    simp only [ZenodoRepository.init, hc]
    exact ⟨_, rfl⟩
  exact ⟨hok, rfl, rfl⟩

/-- Witness for `init_requires_nonempty_path` at a concrete instance. -/
theorem init_requires_nonempty_path_witness :
    (∃ r, ZenodoRepository.init "zenodo.org/record/1" cDsName cSsName = .ok r)
    ∧ ZenodoRepository.init "" cDsName cSsName = .error .indexError
    ∧ cRepo0.download_synthetic_dataset cEnv World.init "timing" ""
        = (cRepo0, World.init, .error .indexError) :=
  init_requires_nonempty_path "zenodo.org/record/1" cDsName cSsName "timing"
    cRepo0 cEnv World.init (by decide)
